/-
Verification of the sensor-acquisition and derived-metrics pipeline of the
multi_gui_awos weather-station system.

The development shallowly embeds the relevant Python functions of the two
near-duplicate sources `awos.py` (class `WeatherStationSystem`) and
`multi_awos.py` (class `DataManager`).  Python floats are modelled as exact
rationals (ℚ); Python's `round` (round-half-to-even) is modelled by
`pyRound`; Modbus register reads that can fail are modelled as
`Except ReadFailure regs`; `None` returns are modelled by `Option`.
Definitions that exist identically in both source files are defined once;
where the two files differ the definitions carry an `awos_` or `multi_`
name part.
-/
import Mathlib

set_option allowUnsafeReducibility true in
attribute [semireducible] Rat.sub Rat.add Rat.mul Rat.inv Rat.ofScientific

/-- Python's built-in `round` on an exact rational: round to the nearest
integer, ties going to the even integer (banker's rounding), as Python 3
does for floats whose value is exactly representable. -/
def pyRound (q : ℚ) : ℤ :=
  if q - ⌊q⌋ < 1/2 then ⌊q⌋
  else if 1/2 < q - ⌊q⌋ then ⌊q⌋ + 1
  else if 2 ∣ ⌊q⌋ then ⌊q⌋ else ⌊q⌋ + 1

/-- Rounding a nonnegative rational never produces a negative integer. -/
theorem pyRound_nonneg (q : ℚ) (h : 0 ≤ q) : 0 ≤ pyRound q := by
  have hf : (0 : ℤ) ≤ ⌊q⌋ := Int.floor_nonneg.mpr h
  unfold pyRound
  split_ifs <;> omega

/-- State of the daily-rainfall accumulator of `awos.py`
(`WeatherStationSystem`): the attributes `last_rain_reset_day`,
`daily_rain_total` and `last_rain_value` (awos.py:852-866).  The three
attributes are always created together (awos.py:855-857), so the overall
state is an `Option RainState`, `none` meaning none of them exists yet. -/
structure RainState where
  last_rain_reset_day : ℕ
  daily_rain_total : ℚ
  last_rain_value : ℚ
deriving DecidableEq

/-- One execution of the body of `WeatherStationSystem.process_rainfall`
(awos.py:846-867) on a non-`None` reading `current_rain`, given the current
day-of-month `day` (`datetime.now().day`).  Returns the new accumulator
state together with the list of daily totals flushed to
`store_daily_rainfall` during this call (awos.py:853-854): the flush
happens only when the attributes exist and the stored day differs from
`day`.  After a reset (first call or day change) the baseline is the
current reading, so `rain_increment = 0` for that call. -/
def rainStep (st : Option RainState) (day : ℕ) (current_rain : ℚ) :
    RainState × List ℚ :=
  let st1 : RainState :=
    match st with
    | none => ⟨day, 0, current_rain⟩
    | some s => if day ≠ s.last_rain_reset_day then ⟨day, 0, current_rain⟩ else s
  let flushed : List ℚ :=
    match st with
    | none => []
    | some s => if day ≠ s.last_rain_reset_day then [s.daily_rain_total] else []
  let rain_increment := current_rain - st1.last_rain_value
  if 0 ≤ rain_increment then
    (⟨st1.last_rain_reset_day, st1.daily_rain_total + rain_increment, current_rain⟩, flushed)
  else
    (⟨st1.last_rain_reset_day, st1.daily_rain_total, current_rain⟩, flushed)

/-- `WeatherStationSystem.process_rainfall` (awos.py:846-867).  A `None`
reading returns `None` at once and leaves the state untouched
(awos.py:848-849); otherwise the body runs and the method returns
`self.daily_rain_total` of the updated state (awos.py:867).  The third
component records the totals passed to `store_daily_rainfall`. -/
def process_rainfall (st : Option RainState) (day : ℕ) (current_rain : Option ℚ) :
    Option RainState × Option ℚ × List ℚ :=
  match current_rain with
  | none => (st, none, [])
  | some r =>
    let res := rainStep st day r
    (some res.1, some res.1.daily_rain_total, res.2)

/-- Successive accumulator states produced by feeding a list of non-`None`
raw readings to `process_rainfall`, all on the same calendar day `day`. -/
def rainStates (st : Option RainState) (day : ℕ) : List ℚ → List RainState
  | [] => []
  | r :: rs =>
    let s := (rainStep st day r).1
    s :: rainStates (some s) day rs

/-- The daily totals returned by `process_rainfall` along a same-day list of
non-`None` raw readings. -/
def rainTotals (st : Option RainState) (day : ℕ) (rs : List ℚ) : List ℚ :=
  (rainStates st day rs).map RainState.daily_rain_total

/-- State of `DataManager.process_rainfall` (multi_awos.py:45-46): the
attributes `last_rain_value` (initially 0) and `no_rain_counter`
(initially 0).  This variant keeps no daily total and no reset day. -/
structure MultiRainState where
  last_rain_value : ℚ
  no_rain_counter : ℕ
deriving DecidableEq

/-- The body of `DataManager.process_rainfall` (multi_awos.py:139-151;
the same code appears as `WeatherStationSystem.process_rainfall` in
awos_new.py:448-462) on a non-`None` reading: if the reading differs from
the previous one by less than `rain_reset_threshold`, a counter is bumped
and once it reaches `rain_reset_time` the reading is forced to 0; the
(possibly zeroed) raw reading itself is stored as `last_rain_value` and
returned — no daily total is accumulated. -/
def multiRainStep (rain_reset_threshold : ℚ) (rain_reset_time : ℕ)
    (st : MultiRainState) (current_rain : ℚ) : MultiRainState × ℚ :=
  if |current_rain - st.last_rain_value| < rain_reset_threshold then
    if rain_reset_time ≤ st.no_rain_counter + 1 then
      (⟨0, 0⟩, 0)
    else
      (⟨current_rain, st.no_rain_counter + 1⟩, current_rain)
  else
    (⟨current_rain, 0⟩, current_rain)

/-- `DataManager.process_rainfall` (multi_awos.py:139-151): `None` input
returns `None` and leaves the state untouched; otherwise the body runs and
the (possibly zeroed) raw reading is returned. -/
def multi_process_rainfall (rain_reset_threshold : ℚ) (rain_reset_time : ℕ)
    (st : MultiRainState) (current_rain : Option ℚ) : MultiRainState × Option ℚ :=
  match current_rain with
  | none => (st, none)
  | some r =>
    let res := multiRainStep rain_reset_threshold rain_reset_time st r
    (res.1, some res.2)

/-- The values returned by `DataManager.process_rainfall` along a list of
non-`None` raw readings. -/
def multiRainOutputs (rain_reset_threshold : ℚ) (rain_reset_time : ℕ)
    (st : MultiRainState) : List ℚ → List ℚ
  | [] => []
  | r :: rs =>
    let res := multiRainStep rain_reset_threshold rain_reset_time st r
    res.2 :: multiRainOutputs rain_reset_threshold rain_reset_time res.1 rs

/-- `calculate_aqi` on a present PM2.5 value: the EPA-style breakpoint
chain of `WeatherStationSystem.calculate_aqi` (awos.py:875-886) and
`DataManager.calculate_aqi` (multi_awos.py:157-168), which are
arithmetically identical. -/
def aqiFromPm25 (pm2_5 : ℚ) : ℚ :=
  if pm2_5 ≤ 12.0 then (pm2_5 / 12.0) * 50
  else if pm2_5 ≤ 35.4 then ((pm2_5 - 12.1) / (35.4 - 12.1)) * (100 - 51) + 51
  else if pm2_5 ≤ 55.4 then ((pm2_5 - 35.5) / (55.4 - 35.5)) * (150 - 101) + 101
  else if pm2_5 ≤ 150.4 then ((pm2_5 - 55.5) / (150.4 - 55.5)) * (200 - 151) + 151
  else if pm2_5 ≤ 250.4 then ((pm2_5 - 150.5) / (250.4 - 150.5)) * (300 - 201) + 201
  else ((pm2_5 - 250.5) / (500.4 - 250.5)) * (500 - 301) + 301

/-- `calculate_aqi` (awos.py:869-888, multi_awos.py:153-168): `None` input
yields `None`, otherwise the breakpoint chain is applied. -/
def calculate_aqi (pm2_5 : Option ℚ) : Option ℚ :=
  pm2_5.map aqiFromPm25

/-- The new accumulator state always stores the day that was passed in. -/
theorem rainStep_day (st : Option RainState) (day : ℕ) (r : ℚ) :
    ((rainStep st day r).1).last_rain_reset_day = day := by
  cases st <;> simp only [rainStep] <;> split_ifs <;> simp_all

/-- One step keeps the daily total nonnegative. -/
theorem rainStep_total_nonneg (st : Option RainState) (day : ℕ) (r : ℚ)
    (h : ∀ s, st = some s → 0 ≤ s.daily_rain_total) :
    0 ≤ ((rainStep st day r).1).daily_rain_total := by
  cases st with
  | none => simp only [rainStep]; split_ifs <;> simp_all
  | some s =>
    have hs := h s rfl
    simp only [rainStep]
    split_ifs <;> simp_all
    linarith

/-- A same-day step never decreases the daily total. -/
theorem rainStep_total_mono (s : RainState) (r : ℚ) :
    s.daily_rain_total ≤ ((rainStep (some s) s.last_rain_reset_day r).1).daily_rain_total := by
  simp only [rainStep]
  split_ifs <;> simp_all

/-- Along a same-day run started from a well-formed state, the totals chain
is nondecreasing and nonnegative. -/
theorem rainTotals_aux (day : ℕ) (rs : List ℚ) :
    ∀ s : RainState, s.last_rain_reset_day = day → 0 ≤ s.daily_rain_total →
      List.Chain' (· ≤ ·) (s.daily_rain_total :: rainTotals (some s) day rs) ∧
      ∀ t ∈ rainTotals (some s) day rs, 0 ≤ t := by
  induction rs with
  | nil => intro s _ h0; simp [rainTotals, rainStates]
  | cons r rs ih =>
    intro s hday h0
    have hmono : s.daily_rain_total ≤ ((rainStep (some s) day r).1).daily_rain_total := by
      rw [← hday]; exact rainStep_total_mono s r
    have hday1 : ((rainStep (some s) day r).1).last_rain_reset_day = day := rainStep_day _ _ _
    have h01 : 0 ≤ ((rainStep (some s) day r).1).daily_rain_total := le_trans h0 hmono
    obtain ⟨ch, pos⟩ := ih ((rainStep (some s) day r).1) hday1 h01
    constructor
    · simp only [rainTotals, rainStates, List.map_cons]
      exact List.Chain'.cons hmono ch
    · intro t ht
      simp only [rainTotals, rainStates, List.map_cons, List.mem_cons] at ht
      rcases ht with h | h
      · rw [h]; exact h01
      · exact pos t (by simpa [rainTotals] using h)

/-- Counterexample to C1: the cited `DataManager.process_rainfall`
(multi_awos.py:139-151; textually the same function in awos_new.py:448-462)
keeps no daily total.  Started from its initial state (`last_rain_value =
0`, `no_rain_counter = 0`, multi_awos.py:45-46) with the configured
`rain_reset_threshold = 0.1` and `rain_reset_time = 12`
(multi_awos.py:869-870), the claim's raw sequence is returned unchanged —
`[10.0, 10.3, 10.3, 9.0, 9.5]`, not the claimed daily totals
`[0, 0.3, 0.3, 0.3, 0.8]`. -/
theorem multi_process_rainfall_returns_raw_not_totals :
    multiRainOutputs 0.1 12 ⟨0, 0⟩ [10.0, 10.3, 10.3, 9.0, 9.5] =
      [10.0, 10.3, 10.3, 9.0, 9.5] ∧
    multiRainOutputs 0.1 12 ⟨0, 0⟩ [10.0, 10.3, 10.3, 9.0, 9.5] ≠
      [0, 0.3, 0.3, 0.3, 0.8] := by decide

/-- C1 (amended): the daily rainfall accumulator of awos.py behaves as
claimed — within one calendar day, a reading whose difference from the
stored baseline is `>= 0` adds that difference to the daily total and
advances the baseline; a reading below the baseline leaves the total
unchanged and only re-baselines; and the raw sequence
`[10.0, 10.3, 10.3, 9.0, 9.5]` processed on one day from the uninitialized
state yields the daily totals `[0, 0.3, 0.3, 0.3, 0.8]`.  The
`process_rainfall` of multi_awos.py / awos_new.py is instead a
threshold-based pass-through that keeps no daily total and returns the raw
readings themselves on that sequence. -/
theorem process_rainfall_same_day_accumulation :
    (∀ (s : RainState) (r : ℚ), 0 ≤ r - s.last_rain_value →
      process_rainfall (some s) s.last_rain_reset_day (some r) =
        (some ⟨s.last_rain_reset_day, s.daily_rain_total + (r - s.last_rain_value), r⟩,
         some (s.daily_rain_total + (r - s.last_rain_value)), [])) ∧
    (∀ (s : RainState) (r : ℚ), r - s.last_rain_value < 0 →
      process_rainfall (some s) s.last_rain_reset_day (some r) =
        (some ⟨s.last_rain_reset_day, s.daily_rain_total, r⟩, some s.daily_rain_total, [])) ∧
    rainTotals none 1 [10.0, 10.3, 10.3, 9.0, 9.5] = [0, 0.3, 0.3, 0.3, 0.8] ∧
    multiRainOutputs 0.1 12 ⟨0, 0⟩ [10.0, 10.3, 10.3, 9.0, 9.5] =
      [10.0, 10.3, 10.3, 9.0, 9.5] := by
  refine ⟨?_, ?_, by decide, by decide⟩
  · intro s r h
    simp [process_rainfall, rainStep, h]
  · intro s r h
    simp [process_rainfall, rainStep, not_le.mpr h]

/-- Witness for C1: a concrete same-day increment (baseline 10, reading
10.3, prior total 0) returns the total 0.3, and a concrete same-day reading
below the baseline (baseline 10.3, reading 9) keeps the total 0.3 and only
re-baselines. -/
theorem process_rainfall_same_day_accumulation_witness :
    ((0:ℚ) ≤ 10.3 - 10 ∧
     process_rainfall (some ⟨1, 0, 10⟩) 1 (some 10.3) =
       (some ⟨1, 0 + (10.3 - 10), 10.3⟩, some (0 + ((10.3:ℚ) - 10)), [])) ∧
    ((9:ℚ) - 10.3 < 0 ∧
     process_rainfall (some ⟨1, 0.3, 10.3⟩) 1 (some 9) =
       (some ⟨1, 0.3, 9⟩, some 0.3, [])) :=
  ⟨⟨by norm_num, process_rainfall_same_day_accumulation.1 ⟨1, 0, 10⟩ 10.3 (by norm_num)⟩,
   ⟨by norm_num, process_rainfall_same_day_accumulation.2.1 ⟨1, 0.3, 10.3⟩ 9 (by norm_num)⟩⟩

/-- C3: when the stored day differs from the current day, `process_rainfall`
flushes the prior daily total to the durable record exactly once, resets the
total to 0, re-baselines to the current raw reading, and the day-crossing
reading itself contributes 0 (the returned total is 0). -/
theorem process_rainfall_day_rollover_flush :
    ∀ (s : RainState) (day : ℕ) (r : ℚ), day ≠ s.last_rain_reset_day →
      process_rainfall (some s) day (some r) =
        (some ⟨day, 0, r⟩, some 0, [s.daily_rain_total]) := by
  intro s day r h
  simp [process_rainfall, rainStep, h]

/-- Witness for C3: crossing from day 5 to day 6 with prior total 7.5 and a
raw reading 3 flushes exactly `[7.5]` and returns total 0. -/
theorem process_rainfall_day_rollover_flush_witness :
    (6 ≠ (5:ℕ)) ∧
    process_rainfall (some ⟨5, 7.5, 42⟩) 6 (some 3) =
      (some ⟨6, 0, 3⟩, some 0, [7.5]) :=
  ⟨by decide, process_rainfall_day_rollover_flush ⟨5, 7.5, 42⟩ 6 3 (by decide)⟩

/-- C10: for any same-day sequence of non-`None` raw readings, starting from
the uninitialized state or any state with a nonnegative total, the returned
daily totals are nonnegative and nondecreasing from one call to the next; in
particular a raw reading below the stored baseline never decreases the
total. -/
theorem rainfall_daily_total_nonneg_monotone :
    ∀ (day : ℕ) (rs : List ℚ) (st : Option RainState),
      (∀ s, st = some s → 0 ≤ s.daily_rain_total) →
      List.Chain' (· ≤ ·) (rainTotals st day rs) ∧ ∀ t ∈ rainTotals st day rs, 0 ≤ t := by
  intro day rs st h
  cases rs with
  | nil => simp [rainTotals, rainStates]
  | cons r rs =>
    have hday1 : ((rainStep st day r).1).last_rain_reset_day = day := rainStep_day _ _ _
    have h01 : 0 ≤ ((rainStep st day r).1).daily_rain_total := rainStep_total_nonneg _ _ _ h
    obtain ⟨ch, pos⟩ := rainTotals_aux day rs ((rainStep st day r).1) hday1 h01
    constructor
    · simpa [rainTotals, rainStates] using ch
    · intro t ht
      simp only [rainTotals, rainStates, List.map_cons, List.mem_cons] at ht
      rcases ht with h' | h'
      · rw [h']; exact h01
      · exact pos t (by simpa [rainTotals] using h')

/-- Witness for C10: a concrete same-day run containing a sensor-counter
reset (readings 10, 9, 9.5) has nondecreasing, nonnegative totals. -/
theorem rainfall_daily_total_nonneg_monotone_witness :
    List.Chain' (· ≤ ·) (rainTotals none 1 [10.0, 9.0, 9.5]) ∧
    ∀ t ∈ rainTotals none 1 [10.0, 9.0, 9.5], 0 ≤ t :=
  rainfall_daily_total_nonneg_monotone 1 [10.0, 9.0, 9.5] none (by simp)

set_option maxHeartbeats 1000000 in
/-- C2: at every PM2.5 breakpoint boundary b in {12.0, 35.4, 55.4, 150.4,
250.4}, the AQI computed at b and at any input within 0.01 just below b
differ by less than 0.1 (the function is continuous from below at each
boundary). -/
theorem calculate_aqi_continuous_below_breakpoints :
    ∀ ε : ℚ, 0 < ε → ε ≤ 1/100 →
      |aqiFromPm25 12.0 - aqiFromPm25 (12.0 - ε)| < 1/10 ∧
      |aqiFromPm25 35.4 - aqiFromPm25 (35.4 - ε)| < 1/10 ∧
      |aqiFromPm25 55.4 - aqiFromPm25 (55.4 - ε)| < 1/10 ∧
      |aqiFromPm25 150.4 - aqiFromPm25 (150.4 - ε)| < 1/10 ∧
      |aqiFromPm25 250.4 - aqiFromPm25 (250.4 - ε)| < 1/10 := by
  intro ε h0 h1
  have e1 : aqiFromPm25 12.0 = 50 := by norm_num [aqiFromPm25]
  have e2 : aqiFromPm25 35.4 = 100 := by norm_num [aqiFromPm25]
  have e3 : aqiFromPm25 55.4 = 150 := by norm_num [aqiFromPm25]
  have e4 : aqiFromPm25 150.4 = 200 := by norm_num [aqiFromPm25]
  have e5 : aqiFromPm25 250.4 = 300 := by norm_num [aqiFromPm25]
  have b1 : aqiFromPm25 (12.0 - ε) = ((12.0 - ε) / 12.0) * 50 := by
    simp only [aqiFromPm25]
    rw [if_pos (by norm_num; linarith)]
  have b2 : aqiFromPm25 (35.4 - ε) = ((35.4 - ε - 12.1) / (35.4 - 12.1)) * (100 - 51) + 51 := by
    simp only [aqiFromPm25]
    rw [if_neg (by norm_num; linarith), if_pos (by norm_num; linarith)]
  have b3 : aqiFromPm25 (55.4 - ε) = ((55.4 - ε - 35.5) / (55.4 - 35.5)) * (150 - 101) + 101 := by
    simp only [aqiFromPm25]
    rw [if_neg (by norm_num; linarith), if_neg (by norm_num; linarith), if_pos (by norm_num; linarith)]
  have b4 : aqiFromPm25 (150.4 - ε) = ((150.4 - ε - 55.5) / (150.4 - 55.5)) * (200 - 151) + 151 := by
    simp only [aqiFromPm25]
    rw [if_neg (by norm_num; linarith), if_neg (by norm_num; linarith), if_neg (by norm_num; linarith),
      if_pos (by norm_num; linarith)]
  have b5 : aqiFromPm25 (250.4 - ε) = ((250.4 - ε - 150.5) / (250.4 - 150.5)) * (300 - 201) + 201 := by
    simp only [aqiFromPm25]
    rw [if_neg (by norm_num; linarith), if_neg (by norm_num; linarith), if_neg (by norm_num; linarith),
      if_neg (by norm_num; linarith), if_pos (by norm_num; linarith)]
  have c1 : ((12.0:ℚ) - ε) / 12.0 * 50 = 50 - (25/6) * ε := by norm_num; ring_nf
  have c2 : ((35.4:ℚ) - ε - 12.1) / (35.4 - 12.1) * (100 - 51) + 51 = 100 - (490/233) * ε := by
    norm_num; ring_nf
  have c3 : ((55.4:ℚ) - ε - 35.5) / (55.4 - 35.5) * (150 - 101) + 101 = 150 - (490/199) * ε := by
    norm_num; ring_nf
  have c4 : ((150.4:ℚ) - ε - 55.5) / (150.4 - 55.5) * (200 - 151) + 151 = 200 - (490/949) * ε := by
    norm_num; ring_nf
  have c5 : ((250.4:ℚ) - ε - 150.5) / (250.4 - 150.5) * (300 - 201) + 201 = 300 - (990/999) * ε := by
    norm_num; ring_nf
  refine ⟨?_, ?_, ?_, ?_, ?_⟩
  · rw [e1, b1, c1, abs_lt]; constructor <;> linarith
  · rw [e2, b2, c2, abs_lt]; constructor <;> linarith
  · rw [e3, b3, c3, abs_lt]; constructor <;> linarith
  · rw [e4, b4, c4, abs_lt]; constructor <;> linarith
  · rw [e5, b5, c5, abs_lt]; constructor <;> linarith

/-- Witness for C2: at distance 0.01 below each boundary the AQI differs
from the boundary value by less than 0.1. -/
theorem calculate_aqi_continuous_below_breakpoints_witness :
    (0:ℚ) < 1/100 ∧
    (|aqiFromPm25 12.0 - aqiFromPm25 (12.0 - 1/100)| < 1/10 ∧
     |aqiFromPm25 35.4 - aqiFromPm25 (35.4 - 1/100)| < 1/10 ∧
     |aqiFromPm25 55.4 - aqiFromPm25 (55.4 - 1/100)| < 1/10 ∧
     |aqiFromPm25 150.4 - aqiFromPm25 (150.4 - 1/100)| < 1/10 ∧
     |aqiFromPm25 250.4 - aqiFromPm25 (250.4 - 1/100)| < 1/10) :=
  ⟨by norm_num,
   calculate_aqi_continuous_below_breakpoints (1/100) (by norm_num) (by norm_num)⟩

/-- The 8-point compass table of `WeatherStationSystem._degrees_to_cardinal`
(awos.py:818). -/
def awos_directions : List String := ["N", "NE", "E", "SE", "S", "SW", "W", "NW"]

/-- `WeatherStationSystem._degrees_to_cardinal` (awos.py:816-820): index
`round(degrees / 45.0) % 8` into the 8-point table. -/
def awos_degrees_to_cardinal (degrees : ℤ) : String :=
  awos_directions.getD ((pyRound ((degrees : ℚ) / 45) % 8).toNat) ""

/-- The 16-point compass table of `DataManager._degrees_to_cardinal`
(multi_awos.py:393-396); its order coincides with the table named by the
spec (N, NNE, NE, ENE, E, ESE, SE, SSE, S, SSW, SW, WSW, W, WNW, NW, NNW). -/
def multi_directions : List String :=
  ["N", "NNE", "NE", "ENE", "E", "ESE", "SE", "SSE",
   "S", "SSW", "SW", "WSW", "W", "WNW", "NW", "NNW"]

/-- `DataManager._degrees_to_cardinal` (multi_awos.py:389-398): values
outside [0, 360] give "Unknown"; otherwise index
`round(degrees / (360/16)) % 16` into the 16-point table. -/
def multi_degrees_to_cardinal (degrees : ℤ) : String :=
  if 0 ≤ degrees ∧ degrees ≤ 360 then
    multi_directions.getD ((pyRound ((degrees : ℚ) / (360 / 16)) % 16).toNat) ""
  else "Unknown"

/-- Modelled from the spec: the claimed cardinal rule, the label at index
`round(degrees / 22.5) mod 16` of the 16-point compass table. -/
def spec_cardinal16 (degrees : ℤ) : String :=
  multi_directions.getD ((pyRound ((degrees : ℚ) / 22.5) % 16).toNat) ""

/-- A failed Modbus register read: either the reply's `isError()` was true
or the read raised an exception; the sources treat the two alike except for
logging. -/
inductive ReadFailure
  | busError
  | exn
deriving DecidableEq

/-- The environment reader's result dict: temperature, humidity, pressure. -/
structure EnvData where
  temperature : ℚ
  humidity : ℚ
  pressure : ℚ
deriving DecidableEq

/-- `WeatherStationSystem.read_environment_sensor` (awos.py:733-747): three
registers each scaled by 1/10; on `isError` or exception it returns a dict
with all three values 0.0 (not an absent reading). -/
def awos_read_environment_sensor : Except ReadFailure (ℕ × ℕ × ℕ) → Option EnvData
  | .ok (r0, r1, r2) => some ⟨(r0 : ℚ) / 10, (r1 : ℚ) / 10, (r2 : ℚ) / 10⟩
  | .error _ => some ⟨0.0, 0.0, 0.0⟩

/-- `DataManager.read_environment_sensor` (multi_awos.py:287-304): same
scaling; on `isError` or exception it returns `None`. -/
def multi_read_environment_sensor : Except ReadFailure (ℕ × ℕ × ℕ) → Option EnvData
  | .ok (r0, r1, r2) => some ⟨(r0 : ℚ) / 10, (r1 : ℚ) / 10, (r2 : ℚ) / 10⟩
  | .error _ => none

/-- `read_uv_sensor` (awos.py:749-757, multi_awos.py:306-319, identical
behaviour): one register scaled by 1/100; fallback 0.0 on any failure. -/
def read_uv_sensor : Except ReadFailure ℕ → Option ℚ
  | .ok r => some ((r : ℚ) / 100)
  | .error _ => some 0.0

/-- `read_wind_speed` (awos.py:785-793, multi_awos.py:350-363, identical
behaviour): one register scaled by 1/10 (m/s); fallback 0.0 on any
failure. -/
def read_wind_speed : Except ReadFailure ℕ → Option ℚ
  | .ok r => some ((r : ℚ) / 10)
  | .error _ => some 0.0

/-- `read_rainfall` (awos.py:822-830, multi_awos.py:400-413, identical
behaviour): one register scaled by 1/10 (mm); `None` on any failure. -/
def read_rainfall : Except ReadFailure ℕ → Option ℚ
  | .ok r => some ((r : ℚ) / 10)
  | .error _ => none

/-- `WeatherStationSystem.read_wind_direction` (awos.py:795-814): average
of registers 0 and 2 (register 1 ignored), divided by 10 and rounded;
accepted only when the result lies in [0, 360], otherwise `None`; `None`
also on any failure. -/
def awos_read_wind_direction : Except ReadFailure (ℕ × ℕ × ℕ) → Option (ℤ × String)
  | .error _ => none
  | .ok (r0, _r1, r2) =>
    let avg_value : ℚ := ((r0 : ℚ) + (r2 : ℚ)) / 2
    let wind_dir_degrees : ℤ := pyRound (avg_value / 10)
    if 0 ≤ wind_dir_degrees ∧ wind_dir_degrees ≤ 360 then
      some (wind_dir_degrees, awos_degrees_to_cardinal wind_dir_degrees)
    else none

/-- `DataManager.read_wind_direction` (multi_awos.py:365-387): identical to
the awos.py variant except that the cardinal label uses the 16-point
table. -/
def multi_read_wind_direction : Except ReadFailure (ℕ × ℕ × ℕ) → Option (ℤ × String)
  | .error _ => none
  | .ok (r0, _r1, r2) =>
    let avg_value : ℚ := ((r0 : ℚ) + (r2 : ℚ)) / 2
    let wind_dir_degrees : ℤ := pyRound (avg_value / 10)
    if 0 ≤ wind_dir_degrees ∧ wind_dir_degrees ≤ 360 then
      some (wind_dir_degrees, multi_degrees_to_cardinal wind_dir_degrees)
    else none

/-- Counterexample to C5: the claim's 16-point rule labels 33° as "NNE",
but awos.py's `_degrees_to_cardinal` (8-point table, 45° buckets) labels it
"NE"; 33° is an acceptable wind-direction value (e.g. registers 330 and 330
average to 33.0°). -/
theorem awos_cardinal_differs_from_claimed_16point :
    awos_degrees_to_cardinal 33 = "NE" ∧ spec_cardinal16 33 = "NNE" ∧
    awos_degrees_to_cardinal 33 ≠ spec_cardinal16 33 := by decide

set_option maxRecDepth 100000 in
/-- C5 (amended): multi_awos.py's `_degrees_to_cardinal` realizes exactly
the claimed rule `round(degrees / 22.5) mod 16` over the 16-point table for
every accepted degree value in [0, 360], and maps 0° to "N", 180° to "S"
and 359° to "N"; awos.py's variant uses the 8-point table instead, though
it agrees on 0°, 180° and 359°. -/
theorem degrees_to_cardinal_16point_mapping :
    (∀ d : ℕ, d ≤ 360 → multi_degrees_to_cardinal d = spec_cardinal16 d) ∧
    multi_degrees_to_cardinal 0 = "N" ∧ multi_degrees_to_cardinal 180 = "S" ∧
    multi_degrees_to_cardinal 359 = "N" ∧
    awos_degrees_to_cardinal 0 = "N" ∧ awos_degrees_to_cardinal 180 = "S" ∧
    awos_degrees_to_cardinal 359 = "N" := by
  refine ⟨by decide, by decide, by decide, by decide, by decide, by decide, by decide⟩

/-- Witness for C5: at 45° the 16-point mapping of multi_awos.py agrees
with the claimed rule. -/
theorem degrees_to_cardinal_16point_mapping_witness :
    (45 : ℕ) ≤ 360 ∧ multi_degrees_to_cardinal 45 = spec_cardinal16 45 :=
  ⟨by decide, degrees_to_cardinal_16point_mapping.1 45 (by decide)⟩

/-- C6: for a successful 3-register wind-direction read, both variants
report exactly `round(((register0 + register2) / 2) / 10.0)` degrees with
register 1 ignored; the value is never negative, is accepted only when it
is at most 360, and any value above 360 yields no reading (never a clamped
or wrapped one). -/
theorem read_wind_direction_degrees_spec :
    ∀ r0 r1 r2 : ℕ,
      0 ≤ pyRound (((r0 : ℚ) + (r2 : ℚ)) / 2 / 10) ∧
      (pyRound (((r0 : ℚ) + (r2 : ℚ)) / 2 / 10) ≤ 360 →
        awos_read_wind_direction (.ok (r0, r1, r2)) =
          some (pyRound (((r0 : ℚ) + (r2 : ℚ)) / 2 / 10),
                awos_degrees_to_cardinal (pyRound (((r0 : ℚ) + (r2 : ℚ)) / 2 / 10))) ∧
        multi_read_wind_direction (.ok (r0, r1, r2)) =
          some (pyRound (((r0 : ℚ) + (r2 : ℚ)) / 2 / 10),
                multi_degrees_to_cardinal (pyRound (((r0 : ℚ) + (r2 : ℚ)) / 2 / 10)))) ∧
      (360 < pyRound (((r0 : ℚ) + (r2 : ℚ)) / 2 / 10) →
        awos_read_wind_direction (.ok (r0, r1, r2)) = none ∧
        multi_read_wind_direction (.ok (r0, r1, r2)) = none) ∧
      (∀ r1' : ℕ, awos_read_wind_direction (.ok (r0, r1', r2)) =
          awos_read_wind_direction (.ok (r0, r1, r2)) ∧
        multi_read_wind_direction (.ok (r0, r1', r2)) =
          multi_read_wind_direction (.ok (r0, r1, r2))) := by
  intro r0 r1 r2
  have hq : (0:ℚ) ≤ ((r0 : ℚ) + (r2 : ℚ)) / 2 / 10 := by positivity
  have h0 := pyRound_nonneg _ hq
  refine ⟨h0, ?_, ?_, fun r1' => ⟨rfl, rfl⟩⟩
  · intro h360
    constructor
    · simp only [awos_read_wind_direction]
      rw [if_pos ⟨h0, h360⟩]
    · simp only [multi_read_wind_direction]
      rw [if_pos ⟨h0, h360⟩]
  · intro h360
    constructor
    · simp only [awos_read_wind_direction]
      rw [if_neg (by omega)]
    · simp only [multi_read_wind_direction]
      rw [if_neg (by omega)]

/-- Witness for C6: registers (100, 5, 200) average to 150, giving 15
degrees, which is accepted; register 1 (here 5) plays no role. -/
theorem read_wind_direction_degrees_spec_witness :
    (pyRound ((((100:ℕ) : ℚ) + ((200:ℕ) : ℚ)) / 2 / 10) ≤ 360 ∧
     awos_read_wind_direction (.ok (100, 5, 200)) = some (15, awos_degrees_to_cardinal 15) ∧
     multi_read_wind_direction (.ok (100, 5, 200)) = some (15, multi_degrees_to_cardinal 15)) ∧
    (360 < pyRound ((((60000:ℕ) : ℚ) + ((60000:ℕ) : ℚ)) / 2 / 10) ∧
     awos_read_wind_direction (.ok (60000, 5, 60000)) = none ∧
     multi_read_wind_direction (.ok (60000, 5, 60000)) = none) := by
  have e : pyRound ((((100:ℕ) : ℚ) + ((200:ℕ) : ℚ)) / 2 / 10) = 15 := by decide
  have h := (read_wind_direction_degrees_spec 100 5 200).2.1 (by rw [e]; decide)
  rw [e] at h
  have e2 : pyRound ((((60000:ℕ) : ℚ) + ((60000:ℕ) : ℚ)) / 2 / 10) = 6000 := by decide
  have h2 := (read_wind_direction_degrees_spec 60000 5 60000).2.2.1 (by rw [e2]; decide)
  exact ⟨⟨by rw [e]; decide, h⟩, ⟨by rw [e2]; decide, h2⟩⟩

/-- Counterexample to C4: on a failed read, awos.py's environment reader
does not return "no data" — it returns a dict with temperature, humidity
and pressure all 0.0. -/
theorem awos_environment_fallback_not_absent :
    awos_read_environment_sensor (.error .busError) = some ⟨0.0, 0.0, 0.0⟩ ∧
    awos_read_environment_sensor (.error .busError) ≠ none :=
  ⟨rfl, by decide⟩

/-- C4 (amended): on any endpoint read failure the UV and wind-speed
readers return 0.0 and the wind-direction and rainfall readers return no
data, in both files; the environment reader returns no data in
multi_awos.py but returns 0.0 for temperature, humidity and pressure in
awos.py. -/
theorem sensor_reader_fallbacks :
    ∀ f : ReadFailure,
      read_uv_sensor (.error f) = some 0.0 ∧
      read_wind_speed (.error f) = some 0.0 ∧
      awos_read_wind_direction (.error f) = none ∧
      multi_read_wind_direction (.error f) = none ∧
      read_rainfall (.error f) = none ∧
      multi_read_environment_sensor (.error f) = none ∧
      awos_read_environment_sensor (.error f) = some ⟨0.0, 0.0, 0.0⟩ := by
  intro f
  exact ⟨rfl, rfl, rfl, rfl, rfl, rfl, rfl⟩

/-- A value stored in the per-cycle data dict: a number or a string. -/
inductive SVal
  | num (q : ℚ)
  | str (s : String)
deriving DecidableEq

/-- Writing one key into a Python dict: replace the value of an existing
key, else append the binding. -/
def setKey : List (String × SVal) → String → SVal → List (String × SVal)
  | [], k, v => [(k, v)]
  | (k', v') :: rest, k, v =>
    if k' = k then (k, v) :: rest else (k', v') :: setKey rest k v

/-- Python's `dict.update`: write every binding of `kvs` in order. -/
def dictUpdate (d : List (String × SVal)) (kvs : List (String × SVal)) : List (String × SVal) :=
  kvs.foldl (fun acc kv => setKey acc kv.1 kv.2) d

/-- Dict lookup: the value of the first binding of `k`, if any. -/
def getVal (d : List (String × SVal)) (k : String) : Option SVal :=
  (d.find? (fun e => e.1 == k)).map (·.2)

/-- The loop body's `if data: current_data.update(data)` (awos.py:919-921,
multi_awos.py:193-195): a reader that produced no data (returned `None` or
raised, which the surrounding `try` swallows) leaves the dict unchanged. -/
def maybeUpdate (d : List (String × SVal)) : Option (List (String × SVal)) → List (String × SVal)
  | some kvs => dictUpdate d kvs
  | none => d

/-- Writing under a different key does not change what a lookup sees. -/
theorem getVal_setKey_ne (d : List (String × SVal)) (k' : String) (v : SVal)
    (k : String) (h : k' ≠ k) : getVal (setKey d k' v) k = getVal d k := by
  have hb : (k' == k) = false := beq_eq_false_iff_ne.mpr h
  induction d with
  | nil => simp [setKey, getVal, List.find?, hb]
  | cons kv rest ih =>
    obtain ⟨a, b⟩ := kv
    by_cases ha : a = k'
    · subst ha
      simp [setKey, getVal, List.find?, hb]
    · simp only [setKey, if_neg ha]
      by_cases hak : a = k
      · subst hak
        simp [getVal, List.find?]
      · have hab : (a == k) = false := beq_eq_false_iff_ne.mpr hak
        simp only [getVal, List.find?] at ih ⊢
        simp [hab, ih]

/-- An update whose keys avoid `k` does not change the lookup at `k`. -/
theorem getVal_dictUpdate_not_key (d : List (String × SVal))
    (kvs : List (String × SVal)) (k : String) (h : k ∉ kvs.map Prod.fst) :
    getVal (dictUpdate d kvs) k = getVal d k := by
  induction kvs generalizing d with
  | nil => rfl
  | cons kv rest ih =>
    simp only [List.map_cons, List.mem_cons, not_or] at h
    have step : dictUpdate d (kv :: rest) = dictUpdate (setKey d kv.1 kv.2) rest := rfl
    rw [step, ih _ h.2, getVal_setKey_ne _ _ _ _ (fun he => h.1 he.symm)]

/-- `maybeUpdate` with entries that avoid `k` keeps the lookup at `k`. -/
theorem getVal_maybeUpdate_map_not_key {α : Type} (d : List (String × SVal))
    (x : Option α) (f : α → List (String × SVal)) (k : String)
    (h : ∀ a : α, k ∉ (f a).map Prod.fst) :
    getVal (maybeUpdate d (x.map f)) k = getVal d k := by
  cases x with
  | none => rfl
  | some a => exact getVal_dictUpdate_not_key d (f a) k (h a)

/-- The AQI reader's result dict (awos.py:772-780, multi_awos.py:333-341). -/
structure AqiData where
  co2 : ℚ
  pm2_5 : ℚ
  pm10 : ℚ
  carbon_monoxide : ℚ
  nitrogen_dioxide : ℚ
  sulphur_dioxide : ℚ
  ozone : ℚ
deriving DecidableEq

/-- The environment reader's dict entries (awos.py:740-744). -/
def envEntries (e : EnvData) : List (String × SVal) :=
  [("temperature", .num e.temperature), ("humidity", .num e.humidity),
   ("pressure", .num e.pressure)]

/-- The UV reader's dict entry (awos.py:754). -/
def uvEntries (u : ℚ) : List (String × SVal) := [("uv_index", .num u)]

/-- The AQI reader's dict entries (awos.py:772-780). -/
def aqiEntries (a : AqiData) : List (String × SVal) :=
  [("co2", .num a.co2), ("pm2_5", .num a.pm2_5), ("pm10", .num a.pm10),
   ("carbon_monoxide", .num a.carbon_monoxide),
   ("nitrogen_dioxide", .num a.nitrogen_dioxide),
   ("sulphur_dioxide", .num a.sulphur_dioxide), ("ozone", .num a.ozone)]

/-- The wind-speed reader's dict entry (awos.py:790). -/
def windSpeedEntries (w : ℚ) : List (String × SVal) := [("wind_speed", .num w)]

/-- The wind-direction reader's dict entries (awos.py:807-810). -/
def windDirEntries (wd : ℤ × String) : List (String × SVal) :=
  [("wind_dir_degrees", .num (wd.1 : ℚ)), ("wind_dir_cardinal", .str wd.2)]

/-- The rainfall reader's dict entry (awos.py:827). -/
def rainfallEntries (r : ℚ) : List (String × SVal) := [("rainfall", .num r)]

/-- One iteration of the snapshot-building part of `sensor_reader_loop`
(awos.py:907-925, multi_awos.py:175-219): start from the timestamp dict and
apply each reader's result in the fixed order environment, uv, aqi,
wind_speed, wind_direction, rainfall; a reader whose outcome is `none`
(failure, `None`, or an exception caught by the per-reader `try`)
contributes nothing and the loop continues with the next reader. -/
def sensor_cycle (ts : String) (env : Option EnvData) (uv : Option ℚ)
    (aqi : Option AqiData) (wind_speed : Option ℚ)
    (wind_direction : Option (ℤ × String)) (rainfall : Option ℚ) :
    List (String × SVal) :=
  maybeUpdate (maybeUpdate (maybeUpdate (maybeUpdate (maybeUpdate (maybeUpdate
    [("timestamp", SVal.str ts)]
    (env.map envEntries)) (uv.map uvEntries)) (aqi.map aqiEntries))
    (wind_speed.map windSpeedEntries)) (wind_direction.map windDirEntries))
    (rainfall.map rainfallEntries)

/-- C7: whatever the outcome of the other endpoints (including failure of
every one of them, e.g. a bus timeout on the wind-speed unit), a cycle in
which the environment read succeeded publishes a snapshot that still
carries that cycle's temperature, humidity and pressure values. -/
theorem sensor_cycle_isolates_endpoint_failures :
    ∀ (ts : String) (e : EnvData) (uv : Option ℚ) (aqi : Option AqiData)
      (ws : Option ℚ) (wd : Option (ℤ × String)) (rf : Option ℚ),
      getVal (sensor_cycle ts (some e) uv aqi ws wd rf) "temperature" = some (.num e.temperature) ∧
      getVal (sensor_cycle ts (some e) uv aqi ws wd rf) "humidity" = some (.num e.humidity) ∧
      getVal (sensor_cycle ts (some e) uv aqi ws wd rf) "pressure" = some (.num e.pressure) := by
  intro ts e uv aqi ws wd rf
  refine ⟨?_, ?_, ?_⟩ <;>
  · simp only [sensor_cycle]
    rw [getVal_maybeUpdate_map_not_key _ rf _ _ (by intro a; simp [rainfallEntries]),
      getVal_maybeUpdate_map_not_key _ wd _ _ (by intro a; simp [windDirEntries]),
      getVal_maybeUpdate_map_not_key _ ws _ _ (by intro a; simp [windSpeedEntries]),
      getVal_maybeUpdate_map_not_key _ aqi _ _ (by intro a; simp [aqiEntries]),
      getVal_maybeUpdate_map_not_key _ uv _ _ (by intro a; simp [uvEntries])]
    simp [maybeUpdate, dictUpdate, setKey, envEntries, getVal, List.find?]

/-- `DataManager.cleanup_old_csv` (multi_awos.py:124-137): among the dated
weather CSV files (represented by their dates as day numbers), remove every
file strictly older than 7 days relative to the current date; the rest are
kept. -/
def cleanup_old_csv (current_date : ℤ) (files : List ℤ) : List ℤ :=
  files.filter (fun file_date => !decide (7 < current_date - file_date))

/-- The dated file name used by `DataManager.csv_writer_loop`
(multi_awos.py:235). -/
def multi_csv_filename (date : String) : String := "weather_data_" ++ date ++ ".csv"

/-- The file name used by `WeatherStationSystem.csv_writer_loop`
(awos.py:939): computed once, independent of the date, so the same file is
appended to on every calendar day. -/
def awos_csv_filename (_date : String) : String := "weather_data.csv"

/-- The per-snapshot file management of `DataManager.csv_writer_loop`
(multi_awos.py:234-246), with the directory contents abstracted to the list
of dates of the existing dated files: if today's file does not exist it is
created (writing the header row, second component `true`) and the retention
cleanup runs; otherwise nothing is created. -/
def csv_writer_step (current_date : ℤ) (files : List ℤ) : List ℤ × Bool :=
  if current_date ∈ files then (files, false)
  else (cleanup_old_csv current_date (current_date :: files), true)

/-- Counterexample to C8: awos.py's persistence writer does not create one
dated file per calendar day — the file it appends to is the same undated
`weather_data.csv` on every day (and awos.py has no retention pruning at
all). -/
theorem awos_csv_file_not_dated :
    awos_csv_filename "2024-01-01" = awos_csv_filename "2024-01-02" ∧
    ("2024-01-01" : String) ≠ "2024-01-02" :=
  ⟨rfl, by decide⟩

/-- C8 (amended, true of multi_awos.py only): the writer creates the dated
file of a day at most once — once the day's file exists no further creation
or header write happens; when the day's file is first created the header is
written and the retention cleanup runs, after which exactly the files at
most 7 days old remain (the new day's file among them); and distinct date
strings always yield distinct dated file names.  awos.py's writer instead
appends to a single undated file and never prunes. -/
theorem csv_writer_per_day_file_and_pruning :
    (∀ (date : ℤ) (files : List ℤ), date ∈ files → csv_writer_step date files = (files, false)) ∧
    (∀ (date : ℤ) (files : List ℤ), date ∉ files →
      (csv_writer_step date files).2 = true ∧
      ∀ d : ℤ, d ∈ (csv_writer_step date files).1 ↔ ((d = date ∨ d ∈ files) ∧ date - d ≤ 7)) ∧
    (∀ (date : ℤ) (files : List ℤ), date ∈ (csv_writer_step date files).1) ∧
    (∀ s t : String, multi_csv_filename s = multi_csv_filename t → s = t) := by
  refine ⟨?_, ?_, ?_, ?_⟩
  · intro date files h
    simp [csv_writer_step, h]
  · intro date files h
    refine ⟨by simp [csv_writer_step, h], ?_⟩
    intro d
    have hstep : (csv_writer_step date files).1 = cleanup_old_csv date (date :: files) := by
      simp [csv_writer_step, h]
    rw [hstep]
    unfold cleanup_old_csv
    rw [List.mem_filter]
    simp only [List.mem_cons, Bool.not_eq_true', decide_eq_false_iff_not, not_lt]
  · intro date files
    by_cases h : date ∈ files
    · simp [csv_writer_step, h]
    · simp [csv_writer_step, h, cleanup_old_csv, List.mem_filter]
  · intro s t h
    have hd := congrArg String.data h
    simp only [multi_csv_filename, String.data_append, List.append_assoc] at hd
    have h1 := List.append_cancel_left hd
    have h2 := List.append_cancel_right h1
    exact String.ext h2

/-- Witness for C8: on day 10 with existing files for days 2 and 9, the
day-10 file is created (header written) and the day-2 file (8 days old) is
pruned while day 9 is kept. -/
theorem csv_writer_per_day_file_and_pruning_witness :
    ((10:ℤ) ∉ ([2, 9] : List ℤ)) ∧
    (csv_writer_step 10 [2, 9]).2 = true ∧
    (((2:ℤ) ∈ (csv_writer_step 10 [2, 9]).1) ↔
      (((2:ℤ) = 10 ∨ (2:ℤ) ∈ ([2, 9] : List ℤ)) ∧ (10:ℤ) - 2 ≤ 7)) ∧
    ((9:ℤ) ∈ ([2, 9] : List ℤ) ∧ csv_writer_step 9 [2, 9] = ([2, 9], false)) ∧
    (multi_csv_filename "2024-01-01" = multi_csv_filename "2024-01-01" →
      ("2024-01-01" : String) = "2024-01-01") :=
  ⟨by decide, (csv_writer_per_day_file_and_pruning.2.1 10 [2, 9] (by decide)).1,
   (csv_writer_per_day_file_and_pruning.2.1 10 [2, 9] (by decide)).2 2,
   ⟨by decide, csv_writer_per_day_file_and_pruning.1 9 [2, 9] (by decide)⟩,
   csv_writer_per_day_file_and_pruning.2.2.2 "2024-01-01" "2024-01-01"⟩
